import Mathlib

/-!
Verification of the configuration component of the repository
(`evaluation_config.py`, class EvaluationConfig).

Python strings are modelled as Lean `String` (character operations go
through `String.data : List Char`); a Python `Optional[str]` value is an
`Option String`, with `none` standing for Python's `None`.  Python
truthiness of an optional string (`None` and `""` are falsy) is the
Boolean `truthy`.  The raising operation `validate` is modelled as
`Except String Unit`, the error carrying the exception message.
-/

/-- Python truthiness of an optional string: `None` and the empty string
are falsy, every other string is truthy. -/
def truthy : Option String → Bool
  | none => false
  | some s => decide (s ≠ (""))

/-- Python's `a or b` on optional strings: returns `a` when `a` is truthy,
otherwise `b` (which may itself be `None`). -/
def pyOr (a b : Option String) : Option String :=
  if truthy a then a else b

/-- The five resolved attributes of `EvaluationConfig` after `__init__`. -/
structure EvaluationConfig where
  azure_deployment : Option String
  api_key : Option String
  azure_endpoint : Option String
  api_version : Option String
  azure_ai_project : Option String
deriving DecidableEq, Repr

/-- `EvaluationConfig.__init__`: each attribute is the explicit argument
when truthy, otherwise the value of the corresponding environment
variable (`os.getenv`, modelled by the lookup function `env`, which
returns `none` when the variable is unset). -/
def EvaluationConfig.init (env : String → Option String)
    (azure_deployment api_key azure_endpoint api_version azure_ai_project :
      Option String) : EvaluationConfig :=
  EvaluationConfig.mk
    (pyOr azure_deployment (env ("AZURE_DEPLOYMENT_NAME")))
    (pyOr api_key (env ("AZURE_API_KEY")))
    (pyOr azure_endpoint (env ("AZURE_ENDPOINT")))
    (pyOr api_version (env ("AZURE_API_VERSION")))
    (pyOr azure_ai_project (env ("AZURE_AI_PROJECT")))

/-- `EvaluationConfig.get_model_config`: the insertion-ordered dictionary
with the four model keys, modelled as an association list. -/
def EvaluationConfig.get_model_config (c : EvaluationConfig) :
    List (String × Option String) :=
  [ (("azure_deployment"), c.azure_deployment)
  , (("api_key"), c.api_key)
  , (("azure_endpoint"), c.azure_endpoint)
  , (("api_version"), c.api_version) ]

/-- `EvaluationConfig.is_valid`: `all` of the four required attributes are
truthy. -/
def EvaluationConfig.is_valid (c : EvaluationConfig) : Bool :=
  truthy c.azure_deployment && truthy c.api_key &&
    truthy c.azure_endpoint && truthy c.api_version

/-- `EvaluationConfig.validate`: collects the names of the falsy required
attributes in source order and raises `ValueError` (modelled as
`Except.error` carrying the message) when any are missing. -/
def EvaluationConfig.validate (c : EvaluationConfig) : Except String Unit :=
  let missing_fields :=
    (if truthy c.azure_deployment then [] else [("azure_deployment")]) ++
    (if truthy c.api_key then [] else [("api_key")]) ++
    (if truthy c.azure_endpoint then [] else [("azure_endpoint")]) ++
    (if truthy c.api_version then [] else [("api_version")])
  if missing_fields.isEmpty then
    Except.ok ()
  else
    Except.error
      (("Missing required configuration fields: ") ++
        String.intercalate (", ") missing_fields)

/-- The `masked_key` local of `EvaluationConfig.__repr__`: when the key is
truthy and longer than 8 characters, first four characters, `...`, last
four characters; otherwise the fixed marker `****`. -/
def EvaluationConfig.masked_key (c : EvaluationConfig) : List Char :=
  match c.api_key with
  | some k =>
      if k ≠ ("") ∧ 8 < k.data.length then
        k.data.take 4 ++ ("...").data ++ k.data.drop (k.data.length - 4)
      else ("****").data
  | none => ("****").data

/-- Python `repr` of an optional string: `None` for `None`, otherwise the
string wrapped in single quotes (escaping of exotic characters is not
modelled; the keys and values considered here contain none). -/
def pyReprOpt : Option String → List Char
  | none => ("None").data
  | some s => '\'' :: s.data ++ [ '\'' ]

/-- `EvaluationConfig.__repr__`: the full display form, with the api key
replaced by `masked_key`. -/
def EvaluationConfig.repr (c : EvaluationConfig) : List Char :=
  ("EvaluationConfig(azure_deployment=").data ++ pyReprOpt c.azure_deployment ++
  (", api_key=").data ++ ('\'' :: c.masked_key ++ [ '\'' ]) ++
  (", azure_endpoint=").data ++ pyReprOpt c.azure_endpoint ++
  (", api_version=").data ++ pyReprOpt c.api_version ++
  (", azure_ai_project=").data ++ pyReprOpt c.azure_ai_project ++ [ ')' ]

/-- Python's `small in big` on strings: `small` occurs contiguously in
`big`, decided by scanning every start position. -/
def containsSub (big small : List Char) : Bool :=
  (List.range (big.length + 1)).any
    (fun i => decide ((big.drop i).take small.length = small))

/-- The four required field names in the fixed order of the spec (and of
the source), paired with their presence status, written independently of
`validate` as a filter over the ordered field list. -/
def specRequiredStatus (c : EvaluationConfig) : List (String × Bool) :=
  [ (("azure_deployment"), truthy c.azure_deployment)
  , (("api_key"), truthy c.api_key)
  , (("azure_endpoint"), truthy c.azure_endpoint)
  , (("api_version"), truthy c.api_version) ]

/-- The names of the missing required fields, in the fixed order, as the
spec describes them. -/
def specMissingFields (c : EvaluationConfig) : List String :=
  ((specRequiredStatus c).filter (fun p => !p.2)).map Prod.fst

/-- The concrete configuration of the spec's scenario: deployment `d1`,
key `abcdefghij`, endpoint `https://e`, version `v1`, no project. -/
def cfgC6 : EvaluationConfig :=
  EvaluationConfig.mk (some ("d1")) (some ("abcdefghij")) (some ("https://e"))
    (some ("v1")) none

/-- A configuration whose key is the spec's long-key example. -/
def cfgLongKey : EvaluationConfig :=
  EvaluationConfig.mk none (some ("test-key-123456789")) none none none

theorem truthy_iff (v : Option String) :
    truthy v = true ↔ ∃ s, v = some s ∧ s ≠ ("") := by
  cases v <;> simp [truthy]

theorem containsSub_iff (big small : List Char) :
    containsSub big small = true ↔
      ∃ i, i ≤ big.length ∧ (big.drop i).take small.length = small := by
  unfold containsSub
  rw [List.any_eq_true]
  constructor
  · rintro ⟨i, hi, hp⟩
    exact ⟨i, Nat.lt_succ_iff.mp (List.mem_range.mp hi), of_decide_eq_true hp⟩
  · rintro ⟨i, hi, hp⟩
    exact ⟨i, List.mem_range.mpr (Nat.lt_succ_of_le hi), decide_eq_true hp⟩

theorem mask_keeps_key_hidden (k : List Char) (hlen : 8 < k.length)
    (hdots : containsSub k (("...").data) = false) :
    containsSub (k.take 4 ++ ("...").data ++ k.drop (k.length - 4)) k = false := by
  cases hc : containsSub (k.take 4 ++ ("...").data ++ k.drop (k.length - 4)) k with
  | false => rfl
  | true =>
    exfalso
    obtain ⟨i, hile, heq⟩ := (containsSub_iff _ _).mp hc
    set m := k.take 4 ++ ("...").data ++ k.drop (k.length - 4) with hm
    have hmlen : m.length = 11 := by
      rw [hm]
      simp [List.length_append, List.length_take, List.length_drop]
      omega
    have hki : k.length ≤ m.length - i := by
      have h1 := congrArg List.length heq
      rw [List.length_take, List.length_drop] at h1
      omega
    have hi2 : i ≤ 2 := by omega
    have h1 : m.drop 4 = ("...").data ++ k.drop (k.length - 4) := by
      have h4 : (k.take 4).length = 4 := by
        rw [List.length_take]
        exact Nat.min_eq_left (by omega)
      have hdl := List.drop_left (k.take 4) (("...").data ++ k.drop (k.length - 4))
      rw [h4] at hdl
      rw [hm, List.append_assoc]
      exact hdl
    have key_eq : k = (m.drop i).take k.length := heq.symm
    have h2 : k.drop (4 - i) =
        ((("...").data ++ k.drop (k.length - 4)).take (k.length - (4 - i))) := by
      conv_lhs => rw [key_eq]
      rw [List.drop_take, List.drop_drop]
      rw [show i + (4 - i) = 4 from by omega]
      rw [h1]
    have h3 : (k.drop (4 - i)).take 3 = ("...").data := by
      rw [h2, List.take_take]
      rw [Nat.min_eq_left (by omega : 3 ≤ k.length - (4 - i))]
      rw [show (3 : Nat) = (("...").data).length from rfl, List.take_left]
    have hin : containsSub k (("...").data) = true := by
      rw [containsSub_iff]
      refine ⟨4 - i, by omega, ?_⟩
      rw [show ((("...").data).length) = 3 from rfl]
      exact h3
    rw [hdots] at hin
    exact absurd hin (by decide)

/-- C1: `validate` succeeds exactly when all four required attributes are
truthy; when it raises, the message is the fixed prefix followed by the
names of exactly the missing required fields, comma-separated, in the
fixed order deployment, key, endpoint, version. -/
theorem C1_validate_message (c : EvaluationConfig) :
    (c.validate = Except.ok () ↔
      (truthy c.azure_deployment = true ∧ truthy c.api_key = true ∧
        truthy c.azure_endpoint = true ∧ truthy c.api_version = true)) ∧
    ∀ e, c.validate = Except.error e →
      specMissingFields c ≠ [] ∧
      e = ("Missing required configuration fields: ") ++
            String.intercalate (", ") (specMissingFields c) := by
  cases hd : truthy c.azure_deployment <;> cases hk : truthy c.api_key <;>
    cases he : truthy c.azure_endpoint <;> cases hv : truthy c.api_version <;>
      simp [EvaluationConfig.validate, specMissingFields, specRequiredStatus,
        hd, hk, he, hv]

/-- C1 witness: a store missing `api_key` and `api_version` raises with a
message naming exactly those two fields, in order. -/
theorem C1_validate_message_witness :
    specMissingFields
        (EvaluationConfig.mk (some ("d")) none (some ("https://e")) none none) ≠ [] ∧
    ("Missing required configuration fields: api_key, api_version") =
      ("Missing required configuration fields: ") ++
        String.intercalate (", ")
          (specMissingFields
            (EvaluationConfig.mk (some ("d")) none (some ("https://e")) none none)) :=
  (C1_validate_message
    (EvaluationConfig.mk (some ("d")) none (some ("https://e")) none none)).2 _ rfl

/-- C2: `is_valid` is true exactly when the four required attributes are
resolved to non-empty strings, and its value does not depend on the
optional `azure_ai_project` attribute.  It is a total Lean function, so it
has no side effects and cannot fail. -/
theorem C2_is_valid_iff (c : EvaluationConfig) :
    (c.is_valid = true ↔
      ((∃ s, c.azure_deployment = some s ∧ s ≠ ("")) ∧
       (∃ s, c.api_key = some s ∧ s ≠ ("")) ∧
       (∃ s, c.azure_endpoint = some s ∧ s ≠ ("")) ∧
       (∃ s, c.api_version = some s ∧ s ≠ ("")))) ∧
    ∀ p, (EvaluationConfig.mk c.azure_deployment c.api_key c.azure_endpoint
        c.api_version p).is_valid = c.is_valid := by
  constructor
  · rw [EvaluationConfig.is_valid]
    simp only [Bool.and_eq_true, truthy_iff]
    tauto
  · intro p
    rfl

/-- C5: `get_model_config` is the ordered four-entry mapping for exactly
the keys deployment, key, endpoint, version, each bound to the current
attribute value, and the project-reference key is never present. -/
theorem C5_get_model_config_shape (c : EvaluationConfig) :
    c.get_model_config.map Prod.fst =
      [("azure_deployment"), ("api_key"), ("azure_endpoint"), ("api_version")] ∧
    c.get_model_config.lookup ("azure_deployment") = some c.azure_deployment ∧
    c.get_model_config.lookup ("api_key") = some c.api_key ∧
    c.get_model_config.lookup ("azure_endpoint") = some c.azure_endpoint ∧
    c.get_model_config.lookup ("api_version") = some c.api_version ∧
    c.get_model_config.lookup ("azure_ai_project") = none :=
  ⟨rfl, rfl, rfl, rfl, rfl, rfl⟩

/-- C7: the soft check and the hard enforcement point agree on every
store: `is_valid` is true exactly when `validate` returns normally, and
false exactly when `validate` raises. -/
theorem C7_is_valid_validate_lockstep (c : EvaluationConfig) :
    (c.is_valid = true ↔ c.validate = Except.ok ()) ∧
    (c.is_valid = false ↔ ∃ e, c.validate = Except.error e) := by
  cases hd : truthy c.azure_deployment <;> cases hk : truthy c.api_key <;>
    cases he : truthy c.azure_endpoint <;> cases hv : truthy c.api_version <;>
      simp [EvaluationConfig.is_valid, EvaluationConfig.validate, hd, hk, he, hv]

/-- C4: at construction, a truthy explicit argument wins over the
environment for each of the five settings, even when the corresponding
environment variable is set. -/
theorem C4_argument_precedence (env : String → Option String)
    (d k e v p w1 w2 w3 w4 w5 : String)
    (h1 : env ("AZURE_DEPLOYMENT_NAME") = some w1)
    (h2 : env ("AZURE_API_KEY") = some w2)
    (h3 : env ("AZURE_ENDPOINT") = some w3)
    (h4 : env ("AZURE_API_VERSION") = some w4)
    (h5 : env ("AZURE_AI_PROJECT") = some w5)
    (hd : d ≠ ("")) (hk : k ≠ ("")) (he : e ≠ ("")) (hv : v ≠ ("")) (hp : p ≠ ("")) :
    EvaluationConfig.init env (some d) (some k) (some e) (some v) (some p) =
      EvaluationConfig.mk (some d) (some k) (some e) (some v) (some p) := by
  simp [EvaluationConfig.init, pyOr, truthy, hd, hk, he, hv, hp]

/-- C4 witness: with every environment variable set to `from-env`, the
explicit arguments are the resolved attributes. -/
theorem C4_argument_precedence_witness :
    EvaluationConfig.init (fun _ => some ("from-env")) (some ("d0")) (some ("k0"))
        (some ("e0")) (some ("v0")) (some ("p0")) =
      EvaluationConfig.mk (some ("d0")) (some ("k0")) (some ("e0")) (some ("v0"))
        (some ("p0")) :=
  C4_argument_precedence _ _ _ _ _ _ _ _ _ _ _ rfl rfl rfl rfl rfl
    (by decide) (by decide) (by decide) (by decide) (by decide)

/-- C8: when the explicit argument is falsy (absent or empty) and the
environment variable is unset, each attribute becomes the absent marker
`none`, which is distinguishable from the empty string `some ""`. -/
theorem C8_absent_marker (env : String → Option String)
    (a b c d e : Option String)
    (f1 : truthy a = false) (f2 : truthy b = false) (f3 : truthy c = false)
    (f4 : truthy d = false) (f5 : truthy e = false)
    (g1 : env ("AZURE_DEPLOYMENT_NAME") = none) (g2 : env ("AZURE_API_KEY") = none)
    (g3 : env ("AZURE_ENDPOINT") = none) (g4 : env ("AZURE_API_VERSION") = none)
    (g5 : env ("AZURE_AI_PROJECT") = none) :
    EvaluationConfig.init env a b c d e =
      EvaluationConfig.mk none none none none none ∧
    (EvaluationConfig.init env a b c d e).azure_deployment ≠ some ("") ∧
    (EvaluationConfig.init env a b c d e).api_key ≠ some ("") ∧
    (EvaluationConfig.init env a b c d e).azure_endpoint ≠ some ("") ∧
    (EvaluationConfig.init env a b c d e).api_version ≠ some ("") ∧
    (EvaluationConfig.init env a b c d e).azure_ai_project ≠ some ("") := by
  simp [EvaluationConfig.init, pyOr, f1, f2, f3, f4, f5, g1, g2, g3, g4, g5]

/-- C8 witness: an empty environment and no arguments give the all-absent
store. -/
theorem C8_absent_marker_witness :
    EvaluationConfig.init (fun _ => none) none none none none none =
      EvaluationConfig.mk none none none none none ∧
    (EvaluationConfig.init (fun _ => none) none none none none none).azure_deployment ≠ some ("") ∧
    (EvaluationConfig.init (fun _ => none) none none none none none).api_key ≠ some ("") ∧
    (EvaluationConfig.init (fun _ => none) none none none none none).azure_endpoint ≠ some ("") ∧
    (EvaluationConfig.init (fun _ => none) none none none none none).api_version ≠ some ("") ∧
    (EvaluationConfig.init (fun _ => none) none none none none none).azure_ai_project ≠ some ("") :=
  C8_absent_marker _ _ _ _ _ _ rfl rfl rfl rfl rfl rfl rfl rfl rfl rfl

/-- C9: constructing with truthy explicit values for all five settings and
reading each attribute back returns exactly the values passed in. -/
theorem C9_roundtrip (env : String → Option String) (d k e v p : String)
    (hd : d ≠ ("")) (hk : k ≠ ("")) (he : e ≠ ("")) (hv : v ≠ ("")) (hp : p ≠ ("")) :
    (EvaluationConfig.init env (some d) (some k) (some e) (some v) (some p)).azure_deployment = some d ∧
    (EvaluationConfig.init env (some d) (some k) (some e) (some v) (some p)).api_key = some k ∧
    (EvaluationConfig.init env (some d) (some k) (some e) (some v) (some p)).azure_endpoint = some e ∧
    (EvaluationConfig.init env (some d) (some k) (some e) (some v) (some p)).api_version = some v ∧
    (EvaluationConfig.init env (some d) (some k) (some e) (some v) (some p)).azure_ai_project = some p := by
  simp [EvaluationConfig.init, pyOr, truthy, hd, hk, he, hv, hp]

/-- C9 witness: the round trip at five concrete values. -/
theorem C9_roundtrip_witness :
    (EvaluationConfig.init (fun _ => some ("w")) (some ("rd")) (some ("rk")) (some ("re")) (some ("rv")) (some ("rp"))).azure_deployment = some ("rd") ∧
    (EvaluationConfig.init (fun _ => some ("w")) (some ("rd")) (some ("rk")) (some ("re")) (some ("rv")) (some ("rp"))).api_key = some ("rk") ∧
    (EvaluationConfig.init (fun _ => some ("w")) (some ("rd")) (some ("rk")) (some ("re")) (some ("rv")) (some ("rp"))).azure_endpoint = some ("re") ∧
    (EvaluationConfig.init (fun _ => some ("w")) (some ("rd")) (some ("rk")) (some ("re")) (some ("rv")) (some ("rp"))).api_version = some ("rv") ∧
    (EvaluationConfig.init (fun _ => some ("w")) (some ("rd")) (some ("rk")) (some ("re")) (some ("rv")) (some ("rp"))).azure_ai_project = some ("rp") :=
  C9_roundtrip _ _ _ _ _ _ (by decide) (by decide) (by decide) (by decide) (by decide)

/-- C10: when every environment variable is set to the empty string and no
arguments are given, each attribute resolves to `some ""` (not the absent
marker `none`), yet `is_valid` is false and `validate` lists all four
required fields — empty-string attributes are treated exactly like absent
ones by both checks. -/
theorem C10_empty_string_env (env : String → Option String)
    (h : ∀ n, env n = some ("")) :
    EvaluationConfig.init env none none none none none =
      EvaluationConfig.mk (some ("")) (some ("")) (some ("")) (some ("")) (some ("")) ∧
    (some ("") : Option String) ≠ none ∧
    (EvaluationConfig.init env none none none none none).is_valid = false ∧
    (EvaluationConfig.init env none none none none none).validate =
      Except.error
        ("Missing required configuration fields: azure_deployment, api_key, azure_endpoint, api_version") ∧
    (EvaluationConfig.init env none none none none none).is_valid =
      (EvaluationConfig.mk none none none none none).is_valid ∧
    (EvaluationConfig.init env none none none none none).validate =
      (EvaluationConfig.mk none none none none none).validate := by
  have hc : EvaluationConfig.init env none none none none none =
      EvaluationConfig.mk (some ("")) (some ("")) (some ("")) (some ("")) (some ("")) := by
    simp [EvaluationConfig.init, pyOr, truthy, h]
  refine ⟨hc, by simp, ?_, ?_, ?_, ?_⟩ <;> rw [hc] <;> rfl

/-- C10 witness: the empty-string environment realised concretely. -/
theorem C10_empty_string_env_witness :
    EvaluationConfig.init (fun _ => some ("")) none none none none none =
      EvaluationConfig.mk (some ("")) (some ("")) (some ("")) (some ("")) (some ("")) ∧
    (some ("") : Option String) ≠ none ∧
    (EvaluationConfig.init (fun _ => some ("")) none none none none none).is_valid = false ∧
    (EvaluationConfig.init (fun _ => some ("")) none none none none none).validate =
      Except.error
        ("Missing required configuration fields: azure_deployment, api_key, azure_endpoint, api_version") ∧
    (EvaluationConfig.init (fun _ => some ("")) none none none none none).is_valid =
      (EvaluationConfig.mk none none none none none).is_valid ∧
    (EvaluationConfig.init (fun _ => some ("")) none none none none none).validate =
      (EvaluationConfig.mk none none none none none).validate :=
  C10_empty_string_env _ (fun _ => rfl)

set_option maxRecDepth 100000 in
/-- C6: the secret key is masked: truthy key longer than 8 characters
shows first four, ellipsis, last four; otherwise (absent or short) the
fixed marker `****`.  On the spec's concrete store the display form
contains `abcd...ghij` and not `abcdefghij`.  `repr` is a total Lean
function, so it cannot fail and has no side effects. -/
theorem C6_masking (c : EvaluationConfig) :
    (∀ k, c.api_key = some k → 8 < k.data.length →
      c.masked_key = k.data.take 4 ++ ("...").data ++ (k.data.reverse.take 4).reverse) ∧
    (∀ k, c.api_key = some k → k.data.length ≤ 8 → c.masked_key = ("****").data) ∧
    (c.api_key = none → c.masked_key = ("****").data) ∧
    containsSub cfgC6.repr (("abcd...ghij").data) = true ∧
    containsSub cfgC6.repr (("abcdefghij").data) = false := by
  refine ⟨?_, ?_, ?_, by decide, by decide⟩
  · intro k hk hlen
    have hne : k ≠ ("") := by
      intro h0
      rw [h0] at hlen
      exact absurd hlen (by decide)
    have hrev : (k.data.reverse.take 4).reverse = k.data.drop (k.data.length - 4) := by
      rw [List.reverse_take]
      simp [List.reverse_reverse, List.length_reverse]
    simp only [EvaluationConfig.masked_key, hk]
    rw [if_pos ⟨hne, hlen⟩, hrev]
  · intro k hk hlen
    simp only [EvaluationConfig.masked_key, hk]
    rw [if_neg]
    rintro ⟨-, h8⟩
    omega
  · intro hk
    simp only [EvaluationConfig.masked_key, hk]

/-- C6 witness: the long-key example masks to first four, ellipsis, last
four. -/
theorem C6_masking_witness :
    EvaluationConfig.masked_key cfgLongKey =
      ("test-key-123456789").data.take 4 ++ ("...").data ++
        ((("test-key-123456789").data.reverse.take 4).reverse) :=
  (C6_masking cfgLongKey).1 _ rfl (by decide)

set_option maxRecDepth 100000 in
/-- C3 counterexample: for the secret key `aaaa...bbbb` (length 11, middle
exactly the ellipsis placeholder) the masked form equals the key itself,
so the full raw secret key appears in the display form — refuting the
claim that `repr` never contains the full key for keys of every length. -/
theorem C3_counterexample :
    containsSub
      (EvaluationConfig.repr
        (EvaluationConfig.mk none (some ("aaaa...bbbb")) none none none))
      (("aaaa...bbbb").data) = true := by decide

/-- C3 amended: for every store whose secret key is longer than 8
characters and does not itself contain the ellipsis placeholder `...`,
the masked key shown in the display form does not contain the full raw
secret key as a substring.  (Keys containing the placeholder, such as
`aaaa...bbbb`, can appear in full, and the raw key can also coincide with
other attributes' text in the full output.) -/
theorem C3_masked_key_no_leak (c : EvaluationConfig) (k : String)
    (hk : c.api_key = some k) (hlen : 8 < k.data.length)
    (hdots : containsSub k.data (("...").data) = false) :
    containsSub c.masked_key k.data = false := by
  have hne : k ≠ ("") := by
    intro h0
    rw [h0] at hlen
    exact absurd hlen (by decide)
  simp only [EvaluationConfig.masked_key, hk]
  rw [if_pos ⟨hne, hlen⟩]
  exact mask_keeps_key_hidden k.data hlen hdots

/-- C3 witness: the masked form of the key `abcdefghij` does not contain
the raw key. -/
theorem C3_masked_key_no_leak_witness :
    containsSub
      (EvaluationConfig.masked_key
        (EvaluationConfig.mk none (some ("abcdefghij")) none none none))
      (("abcdefghij").data) = false :=
  C3_masked_key_no_leak
    (EvaluationConfig.mk none (some ("abcdefghij")) none none none)
    _ rfl (by decide) (by decide)
